import Mathlib

/-!
Verification development for the MealShare backend (backend/server.js and
backend/database.js): a meal-surplus marketplace with user registration,
login, meal publication by merchants, a public meal listing, and meal
reservation by users subject to a 3-day cooldown and portion availability.

The embedding models the SQLite store as lists of rows, times as integer
seconds, and each Express route handler as a function from request data and
store to a response and an updated store. The password hash function of
bcrypt is kept abstract as a parameter. The asynchronous callback chain of
the reserve handler is additionally modelled as a small-step machine so that
interleavings of concurrent requests, and faults between the reservation
insert and the portions update, can be examined.
-/

namespace MealShare

/-- Row of the users table (backend/database.js, CREATE TABLE users). -/
structure User where
  id : Nat
  name : String
  email : String
  password_hash : String
  role : String
  created_at : Int
  deriving DecidableEq

/-- Row of the meals table (backend/database.js, CREATE TABLE meals). -/
structure Meal where
  id : Nat
  merchant_id : Nat
  title : String
  description : String
  portions_available : Int
  pickup_time : String
  created_at : Int
  deriving DecidableEq

/-- Row of the reservations table (backend/database.js, CREATE TABLE reservations). -/
structure Reservation where
  id : Nat
  user_id : Nat
  meal_id : Nat
  created_at : Int
  deriving DecidableEq

/-- The persistent store: the three tables plus the AUTOINCREMENT counters. -/
structure Store where
  users : List User
  meals : List Meal
  reservations : List Reservation
  nextUserId : Nat
  nextMealId : Nat
  nextReservationId : Nat
  deriving DecidableEq

/-- The identity claims embedded in a verified bearer token, as attached to
req.user by authenticateToken (server.js lines 21-37): id, email, role. -/
structure AuthUser where
  id : Nat
  email : String
  role : String
  deriving DecidableEq

/-- Public user view of a login response (server.js lines 126-131). -/
structure PublicUser where
  id : Nat
  name : String
  email : String
  role : String
  deriving DecidableEq

/-- Payload signed into the JWT on login (server.js lines 113-121). -/
structure TokenPayload where
  id : Nat
  email : String
  role : String
  deriving DecidableEq

/-- Outcome of POST /register (server.js lines 46-86). -/
inductive RegisterResult where
  | validationError
  | duplicateEmail
  | created (id : Nat) (name : String) (email : String) (role : String)
  deriving DecidableEq

/-- POST /register (server.js lines 46-86): validates presence of name,
email, password; defaults role to user unless it equals merchant; hashes the
password; inserts, failing on a duplicate email (UNIQUE constraint). -/
def register (hash : String → String) (s : Store) (name email password roleField : String)
    (now : Int) : RegisterResult × Store :=
  if name = "" ∨ email = "" ∨ password = "" then (.validationError, s)
  else
    let userRole := if roleField = "merchant" then "merchant" else "user"
    let h := hash password
    if s.users.any (fun u => u.email == email) then (.duplicateEmail, s)
    else
      let u : User := ⟨s.nextUserId, name, email, h, userRole, now⟩
      (.created u.id name email userRole,
        { s with users := s.users ++ [u], nextUserId := s.nextUserId + 1 })

/-- Outcome of POST /login (server.js lines 90-135). -/
inductive LoginResult where
  | validationError
  | userNotFound
  | incorrectPassword
  | success (token : TokenPayload) (user : PublicUser)
  deriving DecidableEq

/-- SELECT * FROM users WHERE email = ? (first matching row). -/
def findByEmail (s : Store) (email : String) : Option User :=
  s.users.find? (fun u => u.email == email)

/-- POST /login (server.js lines 90-135): presence check, lookup by email,
bcrypt comparison of the supplied password against the stored hash, and on
success a signed token embedding id, email, role plus the public user view.
The bcrypt comparison is the abstract parameter vrfy. -/
def login (vrfy : String → String → Bool) (s : Store) (email password : String) : LoginResult :=
  if email = "" ∨ password = "" then .validationError
  else
    match findByEmail s email with
    | none => .userNotFound
    | some u =>
      if vrfy password u.password_hash then
        .success ⟨u.id, u.email, u.role⟩ ⟨u.id, u.name, u.email, u.role⟩
      else .incorrectPassword

/-- Outcome of POST /meals (server.js lines 139-178). -/
inductive CreateMealResult where
  | forbidden
  | validationError
  | created (m : Meal)
  deriving DecidableEq

/-- POST /meals (server.js lines 139-178): requires role merchant (403
otherwise), then the presence check on title, portions_available and
pickup_time; a numeric portions_available is falsy in JavaScript exactly
when it is 0, strings are falsy exactly when empty. Inserts the meal with
the given portions_available and the requester as merchant. -/
def createMeal (s : Store) (auth : AuthUser) (title : String) (description : Option String)
    (portions_available : Int) (pickup_time : String) (now : Int) : CreateMealResult × Store :=
  if auth.role ≠ "merchant" then (.forbidden, s)
  else if title = "" ∨ portions_available = 0 ∨ pickup_time = "" then (.validationError, s)
  else
    let m : Meal := ⟨s.nextMealId, auth.id, title, description.getD "",
      portions_available, pickup_time, now⟩
    (.created m, { s with meals := s.meals ++ [m], nextMealId := s.nextMealId + 1 })

/-- Joined row of GET /meals: SELECT meals.*, users.name AS merchant_name. -/
structure MealWithMerchant where
  meal : Meal
  merchant_name : String
  deriving DecidableEq

/-- Row order of ORDER BY meals.created_at DESC: a row may precede another
exactly when its created_at is at least as large. -/
def mealOrder (a b : MealWithMerchant) : Prop :=
  b.meal.created_at ≤ a.meal.created_at

instance : DecidableRel mealOrder :=
  fun a b => inferInstanceAs (Decidable (b.meal.created_at ≤ a.meal.created_at))

instance : IsTotal MealWithMerchant mealOrder :=
  ⟨fun a b => le_total b.meal.created_at a.meal.created_at⟩

instance : IsTrans MealWithMerchant mealOrder :=
  ⟨fun _ _ _ hab hbc => le_trans hbc hab⟩

/-- GET /meals (server.js lines 182-197): inner join of meals with users on
meals.merchant_id = users.id, projecting the meal columns and the merchant
name, ordered by meals.created_at descending. No authenticateToken
middleware is installed on this route. -/
def listMeals (s : Store) : List MealWithMerchant :=
  List.insertionSort mealOrder
    (s.meals.flatMap (fun m =>
      (s.users.filter (fun u => u.id == m.merchant_id)).map (fun u => ⟨m, u.name⟩)))

/-- Outcome of POST /meals/:id/reserve (server.js lines 201-287). -/
inductive ReserveResult where
  | forbidden
  | cooldownActive
  | notFound
  | soldOut
  | created (r : Reservation)
  deriving DecidableEq

/-- Three days in seconds, the cooldown window of datetime(now, -3 days). -/
def threeDays : Int := 3 * 86400

/-- The recent-reservation query (server.js lines 210-216): SELECT * FROM
reservations WHERE user_id = ? AND created_at > datetime(now, -3 days)
ORDER BY created_at DESC LIMIT 1. -/
def recentReservationQuery (s : Store) (userId : Nat) (now : Int) : Option Reservation :=
  (List.insertionSort (fun a b : Reservation => b.created_at ≤ a.created_at)
    (s.reservations.filter
      (fun r => r.user_id == userId && decide (now - threeDays < r.created_at)))).head?

/-- The handler treats the queried row as a boolean: a cooldown is active
exactly when the recent-reservation query returns a row (server.js line 224). -/
def cooldownBlocked (s : Store) (userId : Nat) (now : Int) : Bool :=
  (recentReservationQuery s userId now).isSome

/-- SELECT * FROM meals WHERE id = ? (server.js lines 231-234). -/
def getMeal (s : Store) (mealId : Nat) : Option Meal :=
  s.meals.find? (fun m => m.id == mealId)

/-- UPDATE meals SET portions_available = portions_available - 1 WHERE id = ?
(server.js lines 263-267). -/
def decrementPortions (meals : List Meal) (mealId : Nat) : List Meal :=
  meals.map (fun m =>
    if m.id == mealId then { m with portions_available := m.portions_available - 1 } else m)

/-- POST /meals/:id/reserve (server.js lines 201-287), run to completion with
no interleaving and no storage fault: role check, cooldown check, meal
lookup, availability check, then the insert of the reservation row followed
by the unconditional decrement of portions_available. -/
def reserve (s : Store) (auth : AuthUser) (mealId : Nat) (now : Int) : ReserveResult × Store :=
  if auth.role ≠ "user" then (.forbidden, s)
  else if cooldownBlocked s auth.id now then (.cooldownActive, s)
  else
    match getMeal s mealId with
    | none => (.notFound, s)
    | some meal =>
      if meal.portions_available ≤ 0 then (.soldOut, s)
      else
        let r : Reservation := ⟨s.nextReservationId, auth.id, mealId, now⟩
        let s1 := { s with reservations := s.reservations ++ [r],
                           nextReservationId := s.nextReservationId + 1 }
        (.created r, { s1 with meals := decrementPortions s1.meals mealId })

/-- Outcome of the reserve handler when storage faults are possible. -/
inductive ReserveFaultResult where
  | forbidden
  | cooldownActive
  | notFound
  | soldOut
  | dbError
  | created (r : Reservation)
  deriving DecidableEq

/-- POST /meals/:id/reserve with fault injection on the two writes, following
the callback chain of server.js lines 256-284: when the INSERT errs the
handler answers 500 and no row was stored; when the INSERT succeeds and the
UPDATE errs the handler answers 500 with the reservation row already
persisted and the portions not decremented — there is no transaction and no
rollback in the code. -/
def reserveWithFaults (s : Store) (auth : AuthUser) (mealId : Nat) (now : Int)
    (insertOk updateOk : Bool) : ReserveFaultResult × Store :=
  if auth.role ≠ "user" then (.forbidden, s)
  else if cooldownBlocked s auth.id now then (.cooldownActive, s)
  else
    match getMeal s mealId with
    | none => (.notFound, s)
    | some meal =>
      if meal.portions_available ≤ 0 then (.soldOut, s)
      else if insertOk = false then (.dbError, s)
      else
        let r : Reservation := ⟨s.nextReservationId, auth.id, mealId, now⟩
        let s1 := { s with reservations := s.reservations ++ [r],
                           nextReservationId := s.nextReservationId + 1 }
        if updateOk = false then (.dbError, s1)
        else (.created r, { s1 with meals := decrementPortions s1.meals mealId })

/-- Progress of one in-flight reserve request through its database callbacks.
Each constructor marks the turns of the event loop between two asynchronous
database operations of server.js lines 201-287. -/
inductive RPhase where
  | start
  | cooldownOk
  | readOk
  | inserted
  | finished
  deriving DecidableEq

/-- Local state of one in-flight reserve request: its identity and target,
the reservation row it inserted, and its eventual response. -/
structure ReqCtx where
  auth : AuthUser
  mealId : Nat
  insertedRow : Option Reservation
  result : Option ReserveResult
  phase : RPhase
  deriving DecidableEq

/-- One atomic turn of a reserve request against the shared store. The role
check and the cooldown query with its check form the first turn, the meal
query with the availability check on the row it returned the second, the
INSERT the third and the UPDATE the fourth, exactly the granularity at which
the callback chain of server.js lines 201-287 yields the event loop. -/
def stepReq (now : Int) (s : Store) (c : ReqCtx) : Store × ReqCtx :=
  match c.phase with
  | .finished => (s, c)
  | .start =>
    if c.auth.role ≠ "user" then (s, { c with result := some .forbidden, phase := .finished })
    else if cooldownBlocked s c.auth.id now then
      (s, { c with result := some .cooldownActive, phase := .finished })
    else (s, { c with phase := .cooldownOk })
  | .cooldownOk =>
    match getMeal s c.mealId with
    | none => (s, { c with result := some .notFound, phase := .finished })
    | some meal =>
      if meal.portions_available ≤ 0 then
        (s, { c with result := some .soldOut, phase := .finished })
      else (s, { c with phase := .readOk })
  | .readOk =>
    let r : Reservation := ⟨s.nextReservationId, c.auth.id, c.mealId, now⟩
    ({ s with reservations := s.reservations ++ [r],
              nextReservationId := s.nextReservationId + 1 },
      { c with insertedRow := some r, phase := .inserted })
  | .inserted =>
    ({ s with meals := decrementPortions s.meals c.mealId },
      { c with result := c.insertedRow.map ReserveResult.created, phase := .finished })

/-- Interleaved execution of two reserve requests: the schedule names, turn
by turn, which request runs (false the first, true the second). -/
def runTwo (now : Int) : List Bool → Store → ReqCtx → ReqCtx → Store × ReqCtx × ReqCtx
  | [], s, a, b => (s, a, b)
  | false :: rest, s, a, b =>
    let p := stepReq now s a
    runTwo now rest p.1 p.2 b
  | true :: rest, s, a, b =>
    let p := stepReq now s b
    runTwo now rest p.1 a p.2

/-- Schema of one SQLite table: its name and column names. -/
structure TableSchema where
  name : String
  columns : List String
  deriving DecidableEq

/-- A database file: its tables, each carrying its schema and its rows. -/
structure Database where
  tables : List (TableSchema × List (List String))
  deriving DecidableEq

/-- Whether a table of the given name exists. -/
def hasTable (db : Database) (n : String) : Bool :=
  db.tables.any (fun p => p.1.name == n)

/-- CREATE TABLE IF NOT EXISTS: when a table of that name exists the
statement does nothing, otherwise it appends a fresh empty table. -/
def createTableIfNotExists (db : Database) (t : TableSchema) : Database :=
  if hasTable db t.name then db else { tables := db.tables ++ [(t, [])] }

/-- Column list of the users table (backend/database.js lines 8-17). -/
def usersSchema : TableSchema :=
  ⟨"users", ["id", "name", "email", "password_hash", "role", "created_at"]⟩

/-- Column list of the meals table (backend/database.js lines 20-31). -/
def mealsSchema : TableSchema :=
  ⟨"meals", ["id", "merchant_id", "title", "description", "portions_available",
    "pickup_time", "created_at"]⟩

/-- Column list of the reservations table (backend/database.js lines 34-43). -/
def reservationsSchema : TableSchema :=
  ⟨"reservations", ["id", "user_id", "meal_id", "created_at"]⟩

/-- The startup schema creation (backend/database.js lines 6-44): the three
CREATE TABLE IF NOT EXISTS statements run in order. -/
def initSchema (db : Database) : Database :=
  createTableIfNotExists
    (createTableIfNotExists (createTableIfNotExists db usersSchema) mealsSchema)
    reservationsSchema

/-- The empty database before any startup. -/
def emptyDatabase : Database := ⟨[]⟩

/-- String values appearing in the JSON body answered by POST /register
(server.js lines 50, 71, 73, 77-83). -/
def registerRespStrings : RegisterResult → List String
  | .validationError => ["Name, email and password are required."]
  | .duplicateEmail => ["Email is already registered."]
  | .created _ name email role => [name, email, role]

/-- String values appearing in the JSON body answered by POST /login
(server.js lines 94, 104, 109, 123-132), with the signed token represented
by the strings embedded in its payload. -/
def loginRespStrings : LoginResult → List String
  | .validationError => ["Email and password are required."]
  | .userNotFound => ["User not found."]
  | .incorrectPassword => ["Incorrect password."]
  | .success t pu => ["Login successful!", t.email, t.role, pu.name, pu.email, pu.role]

/-- An HTTP route of the app together with whether the authenticateToken
middleware guards it (server.js lines 41, 46, 90, 139, 182, 201). -/
structure Route where
  method : String
  path : String
  requiresAuth : Bool
  deriving DecidableEq

/-- The route table of server.js in registration order. -/
def routes : List Route :=
  [⟨"GET", "/", false⟩,
   ⟨"POST", "/register", false⟩,
   ⟨"POST", "/login", false⟩,
   ⟨"POST", "/meals", true⟩,
   ⟨"GET", "/meals", false⟩,
   ⟨"POST", "/meals/:id/reserve", true⟩]

/-! Concrete fixtures used to exercise the operations. -/

/-- A registered user account. -/
def u1 : User := ⟨1, "Ana", "a@x.com", "HASH1", "user", 0⟩

/-- A second registered user account. -/
def u2 : User := ⟨2, "Bo", "b@x.com", "HASH2", "user", 0⟩

/-- A registered merchant account. -/
def merch : User := ⟨3, "Mia", "m@x.com", "HASH3", "merchant", 0⟩

/-- A meal published by the merchant with a single portion left. -/
def meal1 : Meal := ⟨1, 3, "Soup", "", 1, "2025-01-02T10:00", 5⟩

/-- A store with two users, one merchant, one single-portion meal and no
reservations. -/
def baseStore : Store := ⟨[u1, u2, merch], [meal1], [], 4, 2, 1⟩

/-- Token claims of the first user. -/
def userA : AuthUser := ⟨1, "a@x.com", "user"⟩

/-- Token claims of the second user. -/
def userB : AuthUser := ⟨2, "b@x.com", "user"⟩

/-- Token claims of the merchant. -/
def merchantAuth : AuthUser := ⟨3, "m@x.com", "merchant"⟩

/-- Reserve request of the first user against meal 1, not yet started. -/
def reqA : ReqCtx := ⟨userA, 1, none, none, .start⟩

/-- Reserve request of the second user against meal 1, not yet started. -/
def reqB : ReqCtx := ⟨userB, 1, none, none, .start⟩

/-- The interleaving in which both requests pass their cooldown check and
read the meal before either writes: cooldown A, cooldown B, meal read A,
meal read B, insert A, update A, insert B, update B. -/
def raceSchedule : List Bool :=
  [false, true, false, true, false, false, true, true]

/-- A store in which user 1 reserved meal 1 at time 50 and meal 2 is sold
out. -/
def cooldownStore : Store :=
  ⟨[u1, u2, merch], [⟨2, 3, "Old", "", 0, "2025-01-01T10:00", 1⟩], [⟨1, 1, 1, 50⟩], 4, 3, 2⟩

/-- A store for the listing: one merchant and two meals with distinct
creation times. -/
def listStore : Store :=
  ⟨[merch], [⟨1, 3, "Soup", "", 1, "2025-01-02T10:00", 5⟩,
             ⟨2, 3, "Rice", "", 2, "2025-01-03T10:00", 9⟩], [], 4, 3, 1⟩

/-! Helper lemmas about the schema creation. -/

/-- CREATE TABLE IF NOT EXISTS on an existing table does nothing. -/
theorem createTableIfNotExists_of_hasTable (db : Database) (t : TableSchema)
    (h : hasTable db t.name = true) : createTableIfNotExists db t = db := by
  simp [createTableIfNotExists, h]

/-- CREATE TABLE IF NOT EXISTS establishes the table it names. -/
theorem hasTable_createTableIfNotExists_self (db : Database) (t : TableSchema) :
    hasTable (createTableIfNotExists db t) t.name = true := by
  unfold createTableIfNotExists
  split
  · assumption
  · simp [hasTable, List.any_append]

/-- CREATE TABLE IF NOT EXISTS keeps every existing table. -/
theorem hasTable_createTableIfNotExists_mono (db : Database) (t : TableSchema) (n : String)
    (h : hasTable db n = true) : hasTable (createTableIfNotExists db t) n = true := by
  by_cases h2 : hasTable db t.name = true
  · simpa [createTableIfNotExists, h2] using h
  · simp only [createTableIfNotExists, h2, if_false, Bool.if_false_right]
    simp only [hasTable, List.any_append] at h ⊢
    simp [h]

/-- Schema creation on a database that already has the three tables is the
identity. -/
theorem initSchema_eq_self (db : Database) (hu : hasTable db "users" = true)
    (hm : hasTable db "meals" = true) (hr : hasTable db "reservations" = true) :
    initSchema db = db := by
  unfold initSchema
  rw [createTableIfNotExists_of_hasTable db usersSchema hu,
    createTableIfNotExists_of_hasTable db mealsSchema hm,
    createTableIfNotExists_of_hasTable db reservationsSchema hr]

/-- After schema creation all three tables exist. -/
theorem hasTables_initSchema (db : Database) :
    hasTable (initSchema db) "users" = true ∧ hasTable (initSchema db) "meals" = true ∧
      hasTable (initSchema db) "reservations" = true := by
  unfold initSchema
  refine ⟨?_, ?_, ?_⟩
  · exact hasTable_createTableIfNotExists_mono _ _ _
      (hasTable_createTableIfNotExists_mono _ _ _
        (hasTable_createTableIfNotExists_self db usersSchema))
  · exact hasTable_createTableIfNotExists_mono _ _ _
      (hasTable_createTableIfNotExists_self _ mealsSchema)
  · exact hasTable_createTableIfNotExists_self _ reservationsSchema

/-- C1: against a meal with one portion, the interleaving of two
concurrent reservation attempts by two distinct eligible users in which both
availability reads precede both commits makes both requests succeed with a
201 reservation, and the meal ends with portions_available = -1: the code
admits N = 2 successes against P = 1 portions and decrements twice,
contradicting the claim that exactly P attempts succeed with the rest
SoldOut and at most P decrements. -/
theorem C1_oversell_race :
    baseStore.meals.map (fun m => m.portions_available) = [1] ∧
    userA ≠ userB ∧
    (runTwo 100 raceSchedule baseStore reqA reqB).2.1.result =
      some (.created ⟨1, 1, 1, 100⟩) ∧
    (runTwo 100 raceSchedule baseStore reqA reqB).2.2.result =
      some (.created ⟨2, 2, 1, 100⟩) ∧
    (runTwo 100 raceSchedule baseStore reqA reqB).1.meals.map
      (fun m => m.portions_available) = [-1] := by
  decide

/-- C3: when the UPDATE decrementing portions_available faults after the
INSERT of the reservation row succeeded, the handler answers 500 while the
reservation row stays persisted and the meal is not decremented: the commit
is not all-or-nothing. -/
theorem C3_partial_commit :
    (reserveWithFaults baseStore userA 1 100 true false).1 = .dbError ∧
    (reserveWithFaults baseStore userA 1 100 true false).2.reservations =
      [⟨1, 1, 1, 100⟩] ∧
    (reserveWithFaults baseStore userA 1 100 true false).2.meals = baseStore.meals := by
  decide

/-- C2 counterexample: from a store whose meals all have nonnegative
portions, a merchant request to POST /meals carrying portions_available = -1
passes the presence check and is stored as given, so createMeal stores a
negative portions_available. -/
theorem C2_negative_portions_counterexample :
    (∀ m ∈ baseStore.meals, 0 ≤ m.portions_available) ∧
    (createMeal baseStore merchantAuth "Tacos" none (-1) "2025-01-03T10:00" 9).1 =
      .created ⟨2, 3, "Tacos", "", -1, "2025-01-03T10:00", 9⟩ ∧
    (∃ m ∈ (createMeal baseStore merchantAuth "Tacos" none (-1) "2025-01-03T10:00" 9).2.meals,
      m.portions_available < 0) := by
  decide

/-- C6: a requester whose role is not merchant gets 403 from POST /meals
with the store unchanged, and a requester whose role is not user gets 403
from POST /meals/:id/reserve with the store unchanged. -/
theorem C6_role_enforcement :
    (∀ (s : Store) (auth : AuthUser) (title : String) (d : Option String) (p : Int)
      (pt : String) (now : Int), auth.role ≠ "merchant" →
        createMeal s auth title d p pt now = (.forbidden, s)) ∧
    (∀ (s : Store) (auth : AuthUser) (mealId : Nat) (now : Int), auth.role ≠ "user" →
        reserve s auth mealId now = (.forbidden, s)) := by
  constructor
  · intro s auth title d p pt now h
    simp [createMeal, h]
  · intro s auth mealId now h
    simp [reserve, h]

/-- C6 witness: the role checks at concrete inputs. -/
theorem C6_role_enforcement_witness :
    createMeal baseStore userA "Pan" none 5 "2025-01-04T10:00" 9 = (.forbidden, baseStore) ∧
    reserve baseStore merchantAuth 1 100 = (.forbidden, baseStore) :=
  ⟨C6_role_enforcement.1 baseStore userA "Pan" none 5 "2025-01-04T10:00" 9 (by decide),
   C6_role_enforcement.2 baseStore merchantAuth 1 100 (by decide)⟩

/-- C9: the startup schema creation is idempotent: on a database already
holding the users, meals and reservations tables it changes nothing (rows
included, since the database is returned unchanged), and running it twice
from the empty database equals running it once; the second run after any
start is a no-op. -/
theorem C9_schema_idempotent :
    (∀ db : Database, hasTable db "users" = true → hasTable db "meals" = true →
      hasTable db "reservations" = true → initSchema db = db) ∧
    (∀ db : Database, initSchema (initSchema db) = initSchema db) ∧
    initSchema (initSchema emptyDatabase) = initSchema emptyDatabase := by
  refine ⟨initSchema_eq_self, ?_, ?_⟩
  · intro db
    obtain ⟨hu, hm, hr⟩ := hasTables_initSchema db
    exact initSchema_eq_self _ hu hm hr
  · decide

/-- C9 witness: re-running schema creation on the database produced by a
first run from empty changes nothing. -/
theorem C9_schema_idempotent_witness :
    initSchema (initSchema emptyDatabase) = initSchema emptyDatabase :=
  C9_schema_idempotent.1 (initSchema emptyDatabase) (by decide) (by decide) (by decide)

/-- C10: under a merchant token with nonempty title and pickup_time, a
portions_available of 0 is rejected with the 400 missing-fields error (0 is
falsy, so the presence check treats it as absent) and stores nothing, while
any negative portions_available passes the presence check and the meal is
stored with that negative value. -/
theorem C10_zero_portions (s : Store) (auth : AuthUser) (title : String)
    (d : Option String) (pt : String) (now : Int) (p : Int)
    (hrole : auth.role = "merchant") (htitle : title ≠ "") (hpt : pt ≠ "")
    (hneg : p < 0) :
    createMeal s auth title d 0 pt now = (.validationError, s) ∧
    createMeal s auth title d p pt now =
      (.created ⟨s.nextMealId, auth.id, title, d.getD "", p, pt, now⟩,
       { s with meals := s.meals ++ [⟨s.nextMealId, auth.id, title, d.getD "", p, pt, now⟩],
                nextMealId := s.nextMealId + 1 }) := by
  constructor
  · simp [createMeal, hrole]
  · have hp : ¬ p = 0 := by omega
    simp [createMeal, hrole, htitle, hpt, hp]

/-- C10 witness: portions_available 0 is rejected and -1 is stored, at a
concrete merchant request. -/
theorem C10_zero_portions_witness :
    createMeal baseStore merchantAuth "Pan" none 0 "2025-01-04T10:00" 9 =
      (.validationError, baseStore) ∧
    createMeal baseStore merchantAuth "Pan" none (-1) "2025-01-04T10:00" 9 =
      (.created ⟨2, 3, "Pan", "", -1, "2025-01-04T10:00", 9⟩,
       { baseStore with meals := baseStore.meals ++ [⟨2, 3, "Pan", "", -1, "2025-01-04T10:00", 9⟩],
                        nextMealId := 3 }) :=
  C10_zero_portions baseStore merchantAuth "Pan" none "2025-01-04T10:00" 9 (-1)
    (by decide) (by decide) (by decide) (by decide)

/-- The cooldown query returns a row exactly when some reservation of the
user is strictly less than three days old. -/
theorem cooldownBlocked_iff (s : Store) (userId : Nat) (now : Int) :
    cooldownBlocked s userId now = true ↔
      ∃ r ∈ s.reservations, r.user_id = userId ∧ now - r.created_at < threeDays := by
  unfold cooldownBlocked recentReservationQuery
  rw [List.head?_isSome]
  have hperm := List.perm_insertionSort
    (fun a b : Reservation => b.created_at ≤ a.created_at)
    (s.reservations.filter
      (fun r => r.user_id == userId && decide (now - threeDays < r.created_at)))
  constructor
  · intro h
    obtain ⟨r, hr⟩ := List.exists_mem_of_ne_nil _ h
    have hr2 := hperm.mem_iff.mp hr
    rw [List.mem_filter] at hr2
    obtain ⟨hmem, hcond⟩ := hr2
    simp only [Bool.and_eq_true, beq_iff_eq, decide_eq_true_eq] at hcond
    exact ⟨r, hmem, hcond.1, by omega⟩
  · rintro ⟨r, hmem, hid, hlt⟩
    intro hnil
    have hin : r ∈ s.reservations.filter
        (fun r => r.user_id == userId && decide (now - threeDays < r.created_at)) := by
      rw [List.mem_filter]
      refine ⟨hmem, ?_⟩
      simp only [Bool.and_eq_true, beq_iff_eq, decide_eq_true_eq]
      exact ⟨hid, by omega⟩
    have := hperm.mem_iff.mpr hin
    rw [hnil] at this
    exact absurd this (List.not_mem_nil r)

/-- For a user-role requester the handler answers CooldownActive exactly
when the cooldown query returns a row. -/
theorem reserve_cooldownActive_iff (s : Store) (auth : AuthUser) (mealId : Nat) (now : Int)
    (hrole : auth.role = "user") :
    (reserve s auth mealId now).1 = .cooldownActive ↔
      cooldownBlocked s auth.id now = true := by
  by_cases hb : cooldownBlocked s auth.id now = true
  · simp [reserve, hrole, hb]
  · rcases hg : getMeal s mealId with _ | meal
    · simp [reserve, hrole, hb, hg]
    · by_cases hp : meal.portions_available ≤ 0
      · simp [reserve, hrole, hb, hg, hp]
      · simp [reserve, hrole, hb, hg, hp]

/-- C4: the five steps of the reserve handler run in the strict order role
check, cooldown check, existence check, availability check, commit, and the
first failing step answers its own error with the store untouched and no
later step applied: a non-user role gets Forbidden for any meal id
(existent or not), a user in cooldown gets CooldownActive whatever the meal,
a missing meal gets NotFound, a meal without portions gets SoldOut, and only
when all four checks pass is the commit applied (reservation appended and
the meal decremented). -/
theorem C4_step_order (s : Store) (auth : AuthUser) (mealId : Nat) (now : Int) :
    (auth.role ≠ "user" → reserve s auth mealId now = (.forbidden, s)) ∧
    (auth.role = "user" → cooldownBlocked s auth.id now = true →
      reserve s auth mealId now = (.cooldownActive, s)) ∧
    (auth.role = "user" → cooldownBlocked s auth.id now = false →
      getMeal s mealId = none → reserve s auth mealId now = (.notFound, s)) ∧
    (∀ meal : Meal, auth.role = "user" → cooldownBlocked s auth.id now = false →
      getMeal s mealId = some meal → meal.portions_available ≤ 0 →
      reserve s auth mealId now = (.soldOut, s)) ∧
    (∀ meal : Meal, auth.role = "user" → cooldownBlocked s auth.id now = false →
      getMeal s mealId = some meal → 0 < meal.portions_available →
      reserve s auth mealId now =
        (.created ⟨s.nextReservationId, auth.id, mealId, now⟩,
         { s with
            reservations := s.reservations ++ [⟨s.nextReservationId, auth.id, mealId, now⟩],
            nextReservationId := s.nextReservationId + 1,
            meals := decrementPortions s.meals mealId })) := by
  refine ⟨?_, ?_, ?_, ?_, ?_⟩
  · intro h
    simp [reserve, h]
  · intro h hb
    simp [reserve, h, hb]
  · intro h hb hg
    simp [reserve, h, hb, hg]
  · intro meal h hb hg hp
    simp [reserve, h, hb, hg, hp]
  · intro meal h hb hg hp
    have hp2 : ¬ meal.portions_available ≤ 0 := by omega
    simp [reserve, h, hb, hg, hp2]

/-- C4 witness: a merchant reserving a nonexistent meal still gets
Forbidden, and a user in cooldown still gets CooldownActive on a sold-out
meal. -/
theorem C4_step_order_witness :
    reserve baseStore merchantAuth 99 100 = (.forbidden, baseStore) ∧
    reserve cooldownStore userA 2 100 = (.cooldownActive, cooldownStore) :=
  ⟨(C4_step_order baseStore merchantAuth 99 100).1 (by decide),
   (C4_step_order cooldownStore userA 2 100).2.1 (by decide) (by decide)⟩

/-- C5: for a user-role requester, the reserve handler answers
CooldownActive exactly when some reservation of that user has createdAt
strictly within the last three days of now; in particular, when every
reservation of the user is exactly three days old or older (createdAt at
most now minus three days), the requester is admitted past the cooldown
check — the boundary is exclusive. -/
theorem C5_cooldown_boundary (s : Store) (auth : AuthUser) (mealId : Nat) (now : Int)
    (hrole : auth.role = "user") :
    ((reserve s auth mealId now).1 = .cooldownActive ↔
      ∃ r ∈ s.reservations, r.user_id = auth.id ∧ now - r.created_at < threeDays) ∧
    ((∀ r ∈ s.reservations, r.user_id = auth.id → r.created_at ≤ now - threeDays) →
      (reserve s auth mealId now).1 ≠ .cooldownActive) := by
  have hiff := (reserve_cooldownActive_iff s auth mealId now hrole).trans
    (cooldownBlocked_iff s auth.id now)
  refine ⟨hiff, ?_⟩
  intro hall hres
  obtain ⟨r, hmem, hid, hlt⟩ := hiff.mp hres
  have := hall r hmem hid
  omega

/-- C5 witness: with a single reservation of user 1 made at time 50, the
reserve handler at time 100 answers CooldownActive, as the iff instance
demands, and a user whose only reservation is exactly three days old is
admitted. -/
theorem C5_cooldown_boundary_witness :
    ((reserve cooldownStore userA 2 100).1 = .cooldownActive ↔
      ∃ r ∈ cooldownStore.reservations, r.user_id = userA.id ∧
        100 - r.created_at < threeDays) ∧
    ((∀ r ∈ baseStore.reservations, r.user_id = userA.id →
        r.created_at ≤ 100 - threeDays) →
      (reserve baseStore userA 1 100).1 ≠ .cooldownActive) :=
  ⟨(C5_cooldown_boundary cooldownStore userA 2 100 (by decide)).1,
   (C5_cooldown_boundary baseStore userA 1 100 (by decide)).2⟩

/-- C7: for a registered user (a user row found under the supplied email),
login succeeds exactly when the bcrypt comparison of the supplied password
against the stored password_hash holds; moreover every string in a login
response is one of the fixed messages or the public fields of that user
(name, email, role), and every string in a register response is one of the
fixed messages, the submitted name and email, or a role literal — the
stored password hash is never among them unless it literally equals one of
those public strings. -/
theorem C7_login_roundtrip :
    (∀ (vrfy : String → String → Bool) (s : Store) (email password : String) (u : User),
      email ≠ "" → password ≠ "" → findByEmail s email = some u →
      ((∃ t pu, login vrfy s email password = .success t pu) ↔
        vrfy password u.password_hash = true)) ∧
    (∀ (vrfy : String → String → Bool) (s : Store) (email password : String) (u : User),
      findByEmail s email = some u →
      ∀ x ∈ loginRespStrings (login vrfy s email password),
        x ∈ ["Email and password are required.", "User not found.", "Incorrect password.",
             "Login successful!", u.name, u.email, u.role]) ∧
    (∀ (hash : String → String) (s : Store) (name email password roleField : String)
      (now : Int),
      ∀ x ∈ registerRespStrings (register hash s name email password roleField now).1,
        x ∈ ["Name, email and password are required.", "Email is already registered.",
             name, email, "user", "merchant"]) := by
  refine ⟨?_, ?_, ?_⟩
  · intro vrfy s email password u he hp hfind
    by_cases hv : vrfy password u.password_hash = true
    · simp [login, he, hp, hfind, hv]
    · simp [login, he, hp, hfind, hv]
  · intro vrfy s email password u hfind x hx
    by_cases hval : email = "" ∨ password = ""
    · simp [login, hval, loginRespStrings] at hx
      simp [hx]
    · by_cases hv : vrfy password u.password_hash = true
      · simp [login, hval, hfind, hv, loginRespStrings] at hx
        rcases hx with h | h | h | h | h | h <;> simp [h]
      · simp [login, hval, hfind, hv, loginRespStrings] at hx
        simp [hx]
  · intro hash s name email password roleField now x hx
    by_cases hval : name = "" ∨ email = "" ∨ password = ""
    · simp [register, hval, registerRespStrings] at hx
      simp [hx]
    · by_cases hdup : s.users.any (fun u => u.email == email) = true
      · simp [register, hval, hdup, registerRespStrings] at hx
        simp [hx]
      · by_cases hrole : roleField = "merchant"
        · simp [register, hval, hdup, hrole, registerRespStrings] at hx
          rcases hx with h | h | h <;> simp [h]
        · simp [register, hval, hdup, hrole, registerRespStrings] at hx
          rcases hx with h | h | h <;> simp [h]

/-- A concrete bcrypt on which the round trip can be evaluated: the hash
prefixes the password and the comparison checks that shape. -/
def vrfyFix : String → String → Bool := fun p h => h == "HASHED:" ++ p

/-- A store holding one registered user whose stored hash is vrfyFix
compatible. -/
def loginStore : Store :=
  ⟨[⟨1, "Ana", "a@x.com", "HASHED:pw1", "user", 0⟩], [], [], 2, 1, 1⟩

/-- C7 witness: at the concrete store, login with the registered email
succeeds exactly when the supplied password verifies against the stored
hash. -/
theorem C7_login_roundtrip_witness :
    (∃ t pu, login vrfyFix loginStore "a@x.com" "pw1" = .success t pu) ↔
      vrfyFix "pw1" "HASHED:pw1" = true :=
  C7_login_roundtrip.1 vrfyFix loginStore "a@x.com" "pw1"
    ⟨1, "Ana", "a@x.com", "HASHED:pw1", "user", 0⟩ (by decide) (by decide) (by decide)

/-- Mapping a projection over a flatMap whose pieces are singletons
projecting back to their seed recovers the original list. -/
theorem map_flatMap_singleton {α β : Type} (g : β → α) (f : α → List β) :
    ∀ l : List α, (∀ a ∈ l, (f a).map g = [a]) → (l.flatMap f).map g = l := by
  intro l
  induction l with
  | nil => intro _; simp
  | cons a t ih =>
    intro h
    rw [List.flatMap_cons, List.map_append, h a (List.mem_cons_self a t),
      ih (fun x hx => h x (List.mem_cons_of_mem a hx)), List.singleton_append]

/-- In a list of users with pairwise distinct ids, filtering on the id of a
member returns exactly that member. -/
theorem filter_singleton_of_nodup (l : List User) (v : Nat)
    (hnd : (l.map (fun u => u.id)).Nodup) (u : User) (hu : u ∈ l) (hv : u.id = v) :
    l.filter (fun w => w.id == v) = [u] := by
  induction l with
  | nil => cases hu
  | cons w t ih =>
    rw [List.map_cons, List.nodup_cons] at hnd
    rcases List.mem_cons.mp hu with rfl | hu2
    · rw [List.filter_cons_of_pos (by simp [hv])]
      have hnil : t.filter (fun w2 => w2.id == v) = [] := by
        rw [List.filter_eq_nil_iff]
        intro a ha
        simp only [beq_iff_eq]
        intro hav
        exact hnd.1 (by rw [hv, ← hav]; exact List.mem_map_of_mem (fun u => u.id) ha)
      rw [hnil]
    · have hwv : ¬ (w.id == v) = true := by
        simp only [beq_iff_eq]
        intro hwv
        refine hnd.1 ?_
        rw [hwv, ← hv]
        exact List.mem_map_of_mem (fun u => u.id) hu2
      rw [List.filter_cons, if_neg hwv]
      exact ih hnd.2 hu2

/-- C8: when user ids are pairwise distinct (the PRIMARY KEY) and every
meal has an existing merchant (the foreign key), GET /meals returns exactly
the meals of the store (the projection to meals is a permutation of the
meals table), sorted by created_at descending, each row annotated with the
name of the user whose id is its merchant_id; and the GET /meals route
carries no authentication middleware. -/
theorem C8_list_meals (s : Store)
    (hids : (s.users.map (fun u => u.id)).Nodup)
    (hfk : ∀ m ∈ s.meals, ∃ u ∈ s.users, u.id = m.merchant_id) :
    ((listMeals s).map (fun x => x.meal)).Perm s.meals ∧
    List.Sorted mealOrder (listMeals s) ∧
    (∀ x ∈ listMeals s, ∃ u ∈ s.users,
      u.id = x.meal.merchant_id ∧ u.name = x.merchant_name) ∧
    (∃ rt ∈ routes, rt.method = "GET" ∧ rt.path = "/meals" ∧ rt.requiresAuth = false) := by
  have hsingle : ∀ m ∈ s.meals,
      (((s.users.filter (fun u => u.id == m.merchant_id)).map
        (fun u => (⟨m, u.name⟩ : MealWithMerchant))).map (fun x => x.meal)) = [m] := by
    intro m hm
    obtain ⟨u, hu, hid⟩ := hfk m hm
    rw [filter_singleton_of_nodup s.users m.merchant_id hids u hu hid]
    rfl
  refine ⟨?_, ?_, ?_, ?_⟩
  · have hperm := (List.perm_insertionSort mealOrder
      (s.meals.flatMap (fun m =>
        (s.users.filter (fun u => u.id == m.merchant_id)).map
          (fun u => (⟨m, u.name⟩ : MealWithMerchant))))).map (fun x => x.meal)
    have heq := map_flatMap_singleton (fun x : MealWithMerchant => x.meal)
      (fun m => (s.users.filter (fun u => u.id == m.merchant_id)).map
        (fun u => (⟨m, u.name⟩ : MealWithMerchant))) s.meals
      (fun a ha => hsingle a ha)
    rw [heq] at hperm
    rw [listMeals]
    exact hperm
  · exact List.sorted_insertionSort mealOrder _
  · intro x hx
    rw [listMeals] at hx
    have hx2 := (List.perm_insertionSort mealOrder _).mem_iff.mp hx
    rw [List.mem_flatMap] at hx2
    obtain ⟨m, _, hxm⟩ := hx2
    rw [List.mem_map] at hxm
    obtain ⟨u, hu, rfl⟩ := hxm
    rw [List.mem_filter] at hu
    exact ⟨u, hu.1, by simpa using hu.2, rfl⟩
  · exact ⟨⟨"GET", "/meals", false⟩, by simp [routes], rfl, rfl, rfl⟩

/-- C8 witness: the listing properties at a concrete store with one
merchant and two meals. -/
theorem C8_list_meals_witness :
    ((listMeals listStore).map (fun x => x.meal)).Perm listStore.meals ∧
    List.Sorted mealOrder (listMeals listStore) ∧
    (∀ x ∈ listMeals listStore, ∃ u ∈ listStore.users,
      u.id = x.meal.merchant_id ∧ u.name = x.merchant_name) ∧
    (∃ rt ∈ routes, rt.method = "GET" ∧ rt.path = "/meals" ∧ rt.requiresAuth = false) :=
  C8_list_meals listStore (by decide) (by decide)

/-- In a meals table with pairwise distinct ids, decrementing the meal the
lookup found keeps every portions count nonnegative provided the found meal
had a strictly positive count. -/
theorem decrementPortions_nonneg (meals : List Meal) (mealId : Nat) (meal : Meal)
    (hpk : (meals.map (fun m => m.id)).Nodup)
    (hnn : ∀ m ∈ meals, 0 ≤ m.portions_available)
    (hfind : meals.find? (fun m => m.id == mealId) = some meal)
    (hpos : 0 < meal.portions_available) :
    ∀ m ∈ decrementPortions meals mealId, 0 ≤ m.portions_available := by
  intro m hm
  rw [decrementPortions, List.mem_map] at hm
  obtain ⟨m0, hm0, rfl⟩ := hm
  by_cases hid : (m0.id == mealId) = true
  · have hmeal_mem := List.mem_of_find?_eq_some hfind
    have hmeal_id := List.find?_some hfind
    have : m0 = meal := by
      refine List.inj_on_of_nodup_map hpk hm0 hmeal_mem ?_
      rw [beq_iff_eq] at hid hmeal_id
      rw [hid, hmeal_id]
    subst this
    simp only [hid, if_true]
    omega
  · simp only [hid, if_false]
    exact hnn m0 hm0

/-- C2 (amended): for a store with pairwise distinct meal ids whose meals
all have nonnegative portions_available, the reserve handler and register
preserve nonnegativity (login and GET /meals perform no writes at all, being
pure reads in this model), a reservation leaves the store entirely unchanged
when the target meal is missing or has no strictly positive
portions_available, and createMeal preserves nonnegativity whenever the
requested portions_available is nonnegative — the qualification the
counterexample forces, since a negative request value passes the presence
check and is stored as given. -/
theorem C2_portions_nonneg (s : Store)
    (hpk : (s.meals.map (fun m => m.id)).Nodup)
    (hnn : ∀ m ∈ s.meals, 0 ≤ m.portions_available) :
    (∀ (auth : AuthUser) (mealId : Nat) (now : Int),
      ∀ m ∈ (reserve s auth mealId now).2.meals, 0 ≤ m.portions_available) ∧
    (∀ (hash : String → String) (name email password roleField : String) (now : Int),
      ∀ m ∈ (register hash s name email password roleField now).2.meals,
        0 ≤ m.portions_available) ∧
    (∀ (auth : AuthUser) (title : String) (d : Option String) (p : Int) (pt : String)
      (now : Int), 0 ≤ p →
      ∀ m ∈ (createMeal s auth title d p pt now).2.meals, 0 ≤ m.portions_available) ∧
    (∀ (auth : AuthUser) (mealId : Nat) (now : Int) (meal : Meal),
      getMeal s mealId = some meal → meal.portions_available ≤ 0 →
      (reserve s auth mealId now).2 = s) := by
  refine ⟨?_, ?_, ?_, ?_⟩
  · intro auth mealId now
    by_cases hrole : auth.role = "user"
    · by_cases hb : cooldownBlocked s auth.id now = true
      · simpa [reserve, hrole, hb] using hnn
      · rcases hg : getMeal s mealId with _ | meal
        · simpa [reserve, hrole, hb, hg] using hnn
        · by_cases hp : meal.portions_available ≤ 0
          · simpa [reserve, hrole, hb, hg, hp] using hnn
          · have hpos : 0 < meal.portions_available := by omega
            rw [getMeal] at hg
            intro m hm
            refine decrementPortions_nonneg s.meals mealId meal hpk hnn hg hpos m ?_
            simpa [reserve, hrole, hb, getMeal, hg, hp] using hm
    · simpa [reserve, hrole] using hnn
  · intro hash name email password roleField now
    by_cases hval : name = "" ∨ email = "" ∨ password = ""
    · simpa [register, hval] using hnn
    · by_cases hdup : s.users.any (fun u => u.email == email) = true
      · simpa [register, hval, hdup] using hnn
      · simpa [register, hval, hdup] using hnn
  · intro auth title d p pt now hp m hm
    by_cases hrole : auth.role = "merchant"
    · by_cases hval : title = "" ∨ p = 0 ∨ pt = ""
      · rw [show (createMeal s auth title d p pt now).2 = s by simp [createMeal, hrole, hval]]
        at hm
        exact hnn m hm
      · simp [createMeal, hrole, hval] at hm
        rcases hm with hm | hm
        · exact hnn m hm
        · subst hm
          exact hp
    · rw [show (createMeal s auth title d p pt now).2 = s by simp [createMeal, hrole]] at hm
      exact hnn m hm
  · intro auth mealId now meal hg hp
    by_cases hrole : auth.role = "user"
    · by_cases hb : cooldownBlocked s auth.id now = true
      · simp [reserve, hrole, hb]
      · simp [reserve, hrole, hb, hg, hp]
    · simp [reserve, hrole]

/-- C2 witness: the preservation properties at the concrete base store. -/
theorem C2_portions_nonneg_witness :
    (∀ (auth : AuthUser) (mealId : Nat) (now : Int),
      ∀ m ∈ (reserve baseStore auth mealId now).2.meals, 0 ≤ m.portions_available) ∧
    (∀ (hash : String → String) (name email password roleField : String) (now : Int),
      ∀ m ∈ (register hash baseStore name email password roleField now).2.meals,
        0 ≤ m.portions_available) ∧
    (∀ (auth : AuthUser) (title : String) (d : Option String) (p : Int) (pt : String)
      (now : Int), 0 ≤ p →
      ∀ m ∈ (createMeal baseStore auth title d p pt now).2.meals,
        0 ≤ m.portions_available) ∧
    (∀ (auth : AuthUser) (mealId : Nat) (now : Int) (meal : Meal),
      getMeal baseStore mealId = some meal → meal.portions_available ≤ 0 →
      (reserve baseStore auth mealId now).2 = baseStore) :=
  C2_portions_nonneg baseStore (by decide) (by decide)

end MealShare
